import Mathlib

/-!
Verification of `tensorflow_gan/examples/cyclegan/generator.py`.

The Python file builds a TensorFlow graph: every `tf.*` call appends a
symbolic operation node to the graph under construction.  We embed that
construction shallowly: `Graph` is the type of symbolic tensor expressions
(one constructor per library primitive the file uses), the module's
functions become Lean functions producing `Graph` values, `raise
ValueError` becomes `Except.error`, and the `end_points` dict becomes an
insertion-ordered association list.  A separate interpretation `shapeSem`
gives each graph node its spatial-shape semantics (VALID convolutions,
reflect padding, transposed convolutions, slicing), used for the shape
claims.
-/

/-- Reshape target produced by `_dynamic_or_static_shape`: either the fully
defined static shape as a list of dimensions, or the dynamic shape tensor
`tf.shape(images)` of the generator input. -/
inductive ReshapeTarget : Type where
  | staticList (dims : List Int) : ReshapeTarget
  | dynamicShapeOfImages : ReshapeTarget
deriving DecidableEq

/-- Symbolic tensor-graph expressions: one constructor per TensorFlow
primitive used by `generator.py`.  `images` is the generator input
placeholder.  `pad` records the per-side spatial paddings and the mode
string; `conv2d` is a VALID-padded bias-free convolution with the given
filter count, kernel sizes and strides; `instanceNorm` records the
`center`, `scale` and `epsilon` arguments passed to
`tfgan.features.instance_norm`; `resize` scales the spatial dimensions of
its input by the given factors (`tf.image.resize` to
`[strides[0]*height, strides[1]*width]`); `conv2dTranspose` is the
VALID-padded transposed convolution; `sliceTrim1` is `net[:, 1:, 1:, :]`;
`scalarMul` is multiplication by the python scalar `tanh_linear_slope`. -/
inductive Graph : Type where
  | images : Graph
  | pad (t : Graph) (top bottom left right : Int) (mode : String) : Graph
  | conv2d (t : Graph) (numFilters : Int) (kh kw sh sw : Int) : Graph
  | instanceNorm (t : Graph) (center scale : Bool) (epsilon : ℚ) : Graph
  | relu (t : Graph) : Graph
  | resize (t : Graph) (factorH factorW : Int) (method : String) : Graph
  | conv2dTranspose (t : Graph) (numFilters : Int) (kh kw sh sw : Int) : Graph
  | sliceTrim1 (t : Graph) : Graph
  | add (a b : Graph) : Graph
  | reshape (t : Graph) (target : ReshapeTarget) : Graph
  | tanh (t : Graph) : Graph
  | scalarMul (t : Graph) (c : ℚ) : Graph
deriving DecidableEq

/-- `_instance_norm(x)` from the source: `tfgan.features.instance_norm(x,
center=True, scale=True, epsilon=0.001)`. -/
def _instance_norm (x : Graph) : Graph :=
  Graph.instanceNorm x true true (1 / 1000)

/-- `_conv2d(net, num_filters, kernel_size, strides)` from the source:
`tf.layers.conv2d` with VALID padding, no bias, random-normal initializer.
The scalar python `strides` broadcasts to both spatial dimensions, and a
scalar `kernel_size` is passed here already broadcast to a pair (that
broadcast is performed inside `tf.layers.conv2d`). -/
def _conv2d (net : Graph) (num_filters : Int) (kernel_size : Int × Int)
    (strides : Int) : Graph :=
  Graph.conv2d net num_filters kernel_size.1 kernel_size.2 strides strides

/-- `cyclegan_upsample(net, num_outputs, strides, method, pad_mode)` from
the source.  The three recognized methods build their respective pipelines;
any other `method` string raises `ValueError('Unknown method: [%s]' %
method)`, modelled as `Except.error`. -/
def cyclegan_upsample (net : Graph) (num_outputs : Int) (strides : Int × Int)
    (method : String) (pad_mode : String) : Except String Graph :=
  if method = "nn_upsample_conv" then
    Except.ok (Graph.relu (_instance_norm (_conv2d
      (Graph.pad (Graph.resize net strides.1 strides.2 "NEAREST_NEIGHBOR")
        1 1 1 1 pad_mode)
      num_outputs (3, 3) 1)))
  else if method = "bilinear_upsample_conv" then
    Except.ok (Graph.relu (_instance_norm (_conv2d
      (Graph.pad (Graph.resize net strides.1 strides.2 "BILINEAR")
        1 1 1 1 pad_mode)
      num_outputs (3, 3) 1)))
  else if method = "conv2d_transpose" then
    Except.ok (Graph.sliceTrim1 (Graph.relu
      (Graph.conv2dTranspose net num_outputs 3 3 strides.1 strides.2)))
  else
    Except.error ("Unknown method: [" ++ method ++ "]")

/-- The default value of the generator's `upsample_fn` argument:
`cyclegan_upsample` with its own default `method='conv2d_transpose'` and
`pad_mode='REFLECT'`. -/
def defaultUpsampleFn (net : Graph) (num_outputs : Int)
    (strides : Int × Int) : Except String Graph :=
  cyclegan_upsample net num_outputs strides "conv2d_transpose" "REFLECT"

/-- Static shape of the rank-4 `images` input, `images.shape.as_list()`:
batch, height and width may be statically unknown (`None`); the channel
count is statically known (the docstring fixes the input to
`[batch_size, h, w, 3]`, and the code uses `input_size[3]` as the filter
count of the output convolution). -/
structure StaticShape4 : Type where
  batch : Option Int
  height : Option Int
  width : Option Int
  channels : Int
deriving DecidableEq

/-- `_dynamic_or_static_shape(tensor)` from the source: the static shape as
a list when it `is_fully_defined()`, otherwise the dynamic `tf.shape`
tensor. -/
def _dynamic_or_static_shape (s : StaticShape4) : ReshapeTarget :=
  match s.batch, s.height, s.width with
  | some b, some h, some w => ReshapeTarget.staticList [b, h, w, s.channels]
  | _, _, _ => ReshapeTarget.dynamicShapeOfImages

/-- Python truthiness test `if height and height % 4 != 0` on a static
dimension: `None` and `0` are falsy, so the check fires exactly on a known
nonzero dimension that is not a multiple of 4. -/
def dimCheckFires (d : Option Int) : Bool :=
  match d with
  | none => false
  | some v => !(v = 0) && !(v % 4 = 0)

/-- The generator's `kernel_size` argument: a scalar or a `[h, w]` pair,
mirroring `if not isinstance(kernel_size, (list, tuple))`. -/
inductive KernelSize : Type where
  | scalar (k : Int) : KernelSize
  | pair (kh kw : Int) : KernelSize
deriving DecidableEq

/-- Normalization of `kernel_size` performed at the top of the generator:
a scalar `k` becomes `[k, k]`. -/
def normalizeKernel (k : KernelSize) : Int × Int :=
  match k with
  | KernelSize.scalar k => (k, k)
  | KernelSize.pair kh kw => (kh, kw)

/-- Body of one iteration of the `residual_blocks` loop without the final
skip connection: `pad → conv2d → instance-norm → ReLU → pad → conv2d →
instance-norm`, with `num_filters * 4` filters and the normalized kernel
and its derived paddings. -/
def resBlockF (nf4 : Int) (k : Int × Int) (pt pb pl pr : Int)
    (net : Graph) : Graph :=
  _instance_norm (_conv2d
    (Graph.pad
      (Graph.relu (_instance_norm (_conv2d
        (Graph.pad net pt pb pl pr "REFLECT") nf4 k 1)))
      pt pb pl pr "REFLECT")
    nf4 k 1)

/-- The `for block_id in xrange(...)` loop: starting from block index `i`
with `r` blocks remaining, returns the final `net` and the list of
`end_points` entries `('resnet_block_%d' % block_id, net)` recorded by the
loop, in insertion order. -/
def resBlocksFrom (f : Graph → Graph) (net : Graph) (i : Nat) :
    Nat → Graph × List (String × Graph)
  | 0 => (net, [])
  | r + 1 =>
    let net' := Graph.add net (f net)
    let rest := resBlocksFrom f net' (i + 1) r
    (rest.1, ("resnet_block_" ++ toString i, net') :: rest.2)

/-- `cyclegan_generator_resnet` from the source, lines 121-239: the
height/width multiple-of-4 checks, kernel normalization, padding
computation, encoder, residual blocks, decoder (through `upsample_fn`,
whose python exceptions propagate, hence the `Except` bind) and the output
stage.  Returns `(end_points['predictions'], end_points)`, the dict in
insertion order.  `num_resnet_blocks` is a `Nat` since `xrange` of a
non-positive count is empty. -/
def cyclegan_generator_resnet (shape : StaticShape4)
    (num_resnet_blocks : Nat) (num_filters : Int)
    (upsample_fn : Graph → Int → Int × Int → Except String Graph)
    (kernel_size : KernelSize) (tanh_linear_slope : ℚ) :
    Except String (Graph × List (String × Graph)) :=
  if dimCheckFires shape.height then
    Except.error "The input height must be a multiple of 4."
  else if dimCheckFires shape.width then
    Except.error "The input width must be a multiple of 4."
  else
    let num_outputs := shape.channels
    let k := normalizeKernel kernel_size
    let pad_top := (k.1 - 1) / 2
    let pad_bottom := k.1 / 2
    let pad_left := (k.2 - 1) / 2
    let pad_right := k.2 / 2
    -- 7x7 input stage
    let net := Graph.pad Graph.images 3 3 3 3 "REFLECT"
    let net := _conv2d net num_filters (7, 7) 1
    let net := _instance_norm net
    let net := Graph.relu net
    let encoder0 := net
    -- encoder
    let net := Graph.pad net pad_top pad_bottom pad_left pad_right "REFLECT"
    let net := _conv2d net (num_filters * 2) k 2
    let net := _instance_norm net
    let net := Graph.relu net
    let encoder1 := net
    let net := Graph.pad net pad_top pad_bottom pad_left pad_right "REFLECT"
    let net := _conv2d net (num_filters * 4) k 2
    let net := _instance_norm net
    let net := Graph.relu net
    let encoder2 := net
    -- residual blocks
    let blocks := resBlocksFrom
      (resBlockF (num_filters * 4) k pad_top pad_bottom pad_left pad_right)
      net 0 num_resnet_blocks
    let net := blocks.1
    -- decoder
    (upsample_fn net (num_filters * 2) (2, 2)).bind (fun d1 =>
      (upsample_fn d1 num_filters (2, 2)).bind (fun d2 =>
        -- output stage
        let net := Graph.pad d2 3 3 3 3 "REFLECT"
        let logits := _conv2d net num_outputs (7, 7) 1
        let logits := Graph.reshape logits (_dynamic_or_static_shape shape)
        let predictions := Graph.add (Graph.tanh logits)
          (Graph.scalarMul logits tanh_linear_slope)
        Except.ok (predictions,
          [("encoder_0", encoder0), ("encoder_1", encoder1),
           ("encoder_2", encoder2)] ++ blocks.2 ++
          [("decoder1", d1), ("decoder2", d2),
           ("logits", logits), ("predictions", predictions)])))

/-!
Claim-side topology definitions.  These restate, in the spec's words, the
fixed pipeline the generator is claimed to build (input stage, two stride-2
encoder stages, residual tower, decoder upsampling, output convolution);
the refinement theorems below compare them with what
`cyclegan_generator_resnet` actually constructs.
-/

/-- A generic processing stage of the claimed topology: reflect padding,
then a convolution with the given filters, kernel and stride, then
instance normalization and ReLU. -/
def specStage (filters : Int) (k : Int × Int) (pt pb pl pr stride : Int)
    (g : Graph) : Graph :=
  Graph.relu (_instance_norm (_conv2d
    (Graph.pad g pt pb pl pr "REFLECT") filters k stride))

/-- The claimed input stage: reflect-padded 7x7 convolution with
`num_filters` filters, instance normalization and ReLU, on the input
images. -/
def specInputStage (nf : Int) : Graph :=
  specStage nf (7, 7) 3 3 3 3 1 Graph.images

/-- One claimed encoder stage: a stride-2 convolution preceded by reflect
padding (with the paddings derived from the kernel size) and followed by
instance normalization and ReLU. -/
def specEncoderStage (filters : Int) (k : Int × Int) (g : Graph) : Graph :=
  specStage filters k ((k.1 - 1) / 2) (k.1 / 2) ((k.2 - 1) / 2) (k.2 / 2) 2 g

/-- Input of the residual tower: the input stage followed by the two
stride-2 encoder stages with `num_filters*2` and `num_filters*4`
filters. -/
def specResTowerIn (nf : Int) (k : Int × Int) : Graph :=
  specEncoderStage (nf * 4) k (specEncoderStage (nf * 2) k (specInputStage nf))

/-- One claimed residual block: `output = input + f(input)` where `f` is
the reflect-pad → conv2d → instance-norm → ReLU → reflect-pad → conv2d →
instance-norm path. -/
def specResStep (nf4 : Int) (k : Int × Int) (g : Graph) : Graph :=
  Graph.add g
    (resBlockF nf4 k ((k.1 - 1) / 2) (k.1 / 2) ((k.2 - 1) / 2) (k.2 / 2) g)

/-- Output of the residual tower: `num_resnet_blocks` residual blocks
applied to the encoder output. -/
def specTowerOut (nf : Int) (k : Int × Int) (nrb : Nat) : Graph :=
  (specResStep (nf * 4) k)^[nrb] (specResTowerIn nf k)

/-- The claimed output stage before the final reshape: a reflect-padded
7x7 convolution producing `num_outputs` channels of logits. -/
def specOutputLogits (numOut : Int) (d2 : Graph) : Graph :=
  _conv2d (Graph.pad d2 3 3 3 3 "REFLECT") numOut (7, 7) 1

/-- The predictions tensor built from the logits:
`tf.tanh(logits) + logits * tanh_linear_slope`. -/
def specPredictions (lg : Graph) (slope : ℚ) : Graph :=
  Graph.add (Graph.tanh lg) (Graph.scalarMul lg slope)

/-- The final `net` of the residual-block loop is the block step iterated
`r` times. -/
lemma resBlocksFrom_fst (f : Graph → Graph) (net : Graph) (i r : Nat) :
    (resBlocksFrom f net i r).1 = (fun g => Graph.add g (f g))^[r] net := by
  induction r generalizing net i with
  | zero => rfl
  | succ r ih =>
    rw [resBlocksFrom, Function.iterate_succ_apply]
    exact ih _ _

/-- The `end_points` entries recorded by the residual-block loop: entry `j`
is keyed `resnet_block_(i+j)` and holds the net after `j+1` block steps. -/
lemma resBlocksFrom_snd (f : Graph → Graph) (net : Graph) (i r : Nat) :
    (resBlocksFrom f net i r).2 =
      (List.range r).map (fun j =>
        ("resnet_block_" ++ toString (i + j),
         (fun g => Graph.add g (f g))^[j + 1] net)) := by
  induction r generalizing net i with
  | zero => rfl
  | succ r ih =>
    rw [resBlocksFrom, List.range_succ_eq_map, List.map_cons, List.map_map, ih]
    refine congrArg₂ _ (by simp) ?_
    refine congrArg₂ _ ?_ rfl
    funext j
    simp only [Function.comp_apply]
    refine congrArg₂ Prod.mk ?_ ?_
    · exact congrArg (fun n => "resnet_block_" ++ toString n) (by omega)
    · exact (Function.iterate_succ_apply _ _ _).symm

/-- Master characterization of the generator: when the dimension checks
pass, `cyclegan_generator_resnet` equals the claimed pipeline — encoder,
residual tower, the two `upsample_fn` stages, output convolution, reshape
to the input shape, tanh-plus-linear predictions — together with the exact
`end_points` dictionary in insertion order. -/
lemma generator_eq_spec (shape : StaticShape4) (nrb : Nat) (nf : Int)
    (upfn : Graph → Int → Int × Int → Except String Graph)
    (ks : KernelSize) (slope : ℚ)
    (hh : dimCheckFires shape.height = false)
    (hw : dimCheckFires shape.width = false) :
    cyclegan_generator_resnet shape nrb nf upfn ks slope =
      (upfn (specTowerOut nf (normalizeKernel ks) nrb) (nf * 2) (2, 2)).bind
        (fun d1 => (upfn d1 nf (2, 2)).bind (fun d2 =>
          Except.ok
            (specPredictions
              (Graph.reshape (specOutputLogits shape.channels d2)
                (_dynamic_or_static_shape shape)) slope,
             [("encoder_0", specInputStage nf),
              ("encoder_1",
               specEncoderStage (nf * 2) (normalizeKernel ks)
                 (specInputStage nf)),
              ("encoder_2", specResTowerIn nf (normalizeKernel ks))] ++
             (List.range nrb).map (fun j =>
               ("resnet_block_" ++ toString j,
                (specResStep (nf * 4) (normalizeKernel ks))^[j + 1]
                  (specResTowerIn nf (normalizeKernel ks)))) ++
             [("decoder1", d1), ("decoder2", d2),
              ("logits",
               Graph.reshape (specOutputLogits shape.channels d2)
                 (_dynamic_or_static_shape shape)),
              ("predictions",
               specPredictions
                 (Graph.reshape (specOutputLogits shape.channels d2)
                   (_dynamic_or_static_shape shape)) slope)]))) := by
  rw [cyclegan_generator_resnet, hh, hw]
  simp only [Bool.false_eq_true, if_false]
  rw [resBlocksFrom_fst, resBlocksFrom_snd]
  simp only [Nat.zero_add]
  rfl

/-!
Shape semantics.  `Shape4` is a concrete rank-4 runtime shape;
`shapeSem rt g` computes the shape of graph `g` when the `images` input has
runtime shape `rt`, following the shape rules of the TensorFlow primitives
the source uses: padding adds to the spatial dimensions, a VALID
convolution with kernel `k` and stride `s` maps a spatial dimension `d` to
`(d - k) / s + 1` (floor), a VALID transposed convolution maps `d` to
`(d - 1) * s + k`, `tf.image.resize` to `[fh * height, fw * width]` scales
the spatial dimensions, `net[:, 1:, 1:, :]` drops one leading spatial row
and column (python slicing never goes below an empty dimension), and
elementwise operations preserve the shape (`add` is applied by the source
only to operands of equal shape, so its shape is its first operand's).
`reshape` to a fully defined static list takes that list's dimensions;
`reshape` to the dynamic shape of `images` takes the input's runtime
shape.
-/

/-- A concrete rank-4 runtime tensor shape. -/
structure Shape4 : Type where
  batch : Int
  height : Int
  width : Int
  channels : Int
deriving DecidableEq

/-- Shape of a graph expression given the runtime shape of `images`. -/
def shapeSem (rt : Shape4) : Graph → Shape4
  | Graph.images => rt
  | Graph.pad t pt pb pl pr _ =>
    let s := shapeSem rt t
    ⟨s.batch, s.height + pt + pb, s.width + pl + pr, s.channels⟩
  | Graph.conv2d t f kh kw sh sw =>
    let s := shapeSem rt t
    ⟨s.batch, (s.height - kh) / sh + 1, (s.width - kw) / sw + 1, f⟩
  | Graph.instanceNorm t _ _ _ => shapeSem rt t
  | Graph.relu t => shapeSem rt t
  | Graph.resize t fh fw _ =>
    let s := shapeSem rt t
    ⟨s.batch, fh * s.height, fw * s.width, s.channels⟩
  | Graph.conv2dTranspose t f kh kw sh sw =>
    let s := shapeSem rt t
    ⟨s.batch, (s.height - 1) * sh + kh, (s.width - 1) * sw + kw, f⟩
  | Graph.sliceTrim1 t =>
    let s := shapeSem rt t
    ⟨s.batch, max (s.height - 1) 0, max (s.width - 1) 0, s.channels⟩
  | Graph.add a _ => shapeSem rt a
  | Graph.reshape t tgt =>
    match tgt with
    | ReshapeTarget.staticList [b, h, w, c] => ⟨b, h, w, c⟩
    | ReshapeTarget.staticList _ => shapeSem rt t
    | ReshapeTarget.dynamicShapeOfImages => rt
  | Graph.tanh t => shapeSem rt t
  | Graph.scalarMul t _ => shapeSem rt t

/-- A static dimension agrees with a runtime dimension when it is either
unknown or equal to it. -/
def optAgrees (o : Option Int) (v : Int) : Bool :=
  match o with
  | none => true
  | some x => x = v

/-- The static shape of `images` agrees with its runtime shape: every
statically known dimension equals the runtime one. -/
def staticAgrees (ss : StaticShape4) (rt : Shape4) : Bool :=
  optAgrees ss.batch rt.batch && optAgrees ss.height rt.height &&
    optAgrees ss.width rt.width && (ss.channels = rt.channels)

/-- `Except.bind` on a success is application. -/
lemma except_bind_ok {α β : Type} (x : α) (f : α → Except String β) :
    (Except.ok x).bind f = f x := rfl

/-- The default upsampling function always succeeds, with the
`conv2d_transpose` pipeline: VALID 3x3 transposed convolution, ReLU, and
the one-pixel slice `net[:, 1:, 1:, :]`. -/
lemma defaultUpsampleFn_eq (net : Graph) (f : Int) (s : Int × Int) :
    defaultUpsampleFn net f s =
      Except.ok (Graph.sliceTrim1 (Graph.relu
        (Graph.conv2dTranspose net f 3 3 s.1 s.2))) := rfl

/-- Shape of the input stage: spatial dimensions are preserved (reflect
pad by 3, then a VALID 7x7 stride-1 convolution), channels become
`num_filters`. -/
lemma shapeSem_specInputStage (rt : Shape4) (nf : Int) :
    shapeSem rt (specInputStage nf) = ⟨rt.batch, rt.height, rt.width, nf⟩ := by
  obtain ⟨B, H, W, C⟩ := rt
  simp only [specInputStage, specStage, _conv2d, _instance_norm, shapeSem,
    Shape4.mk.injEq]
  refine ⟨trivial, by omega, by omega, trivial⟩

/-- Shape of one encoder stage: for any kernel size, the derived paddings
`(k-1)//2` and `k//2` make the stride-2 VALID convolution map a spatial
dimension `d` to `(d - 1) / 2 + 1`. -/
lemma shapeSem_specEncoderStage (rt : Shape4) (f : Int) (k : Int × Int)
    (g : Graph) :
    shapeSem rt (specEncoderStage f k g) =
      ⟨(shapeSem rt g).batch, ((shapeSem rt g).height - 1) / 2 + 1,
       ((shapeSem rt g).width - 1) / 2 + 1, f⟩ := by
  simp only [specEncoderStage, specStage, _conv2d, _instance_norm, shapeSem,
    Shape4.mk.injEq]
  refine ⟨trivial, by omega, by omega, trivial⟩

/-- Residual blocks preserve the shape of their input, whatever the kernel
size: the skip connection fixes the output shape to the block input's. -/
lemma shapeSem_iterate_resStep (rt : Shape4) (nf4 : Int) (k : Int × Int)
    (n : Nat) (g : Graph) :
    shapeSem rt ((specResStep nf4 k)^[n] g) = shapeSem rt g := by
  induction n with
  | zero => rfl
  | succ n ih =>
    rw [Function.iterate_succ_apply']
    simp only [specResStep, shapeSem]
    exact ih

/-- Shape of the residual tower output in terms of the input shape: each
encoder stage halves (rounding up) the spatial dimensions, and the blocks
preserve them. -/
lemma shapeSem_towerOut (rt : Shape4) (nf : Int) (k : Int × Int) (nrb : Nat) :
    shapeSem rt (specTowerOut nf k nrb) =
      ⟨rt.batch, (((rt.height - 1) / 2 + 1) - 1) / 2 + 1,
       (((rt.width - 1) / 2 + 1) - 1) / 2 + 1, nf * 4⟩ := by
  rw [specTowerOut, shapeSem_iterate_resStep, specResTowerIn]
  simp [shapeSem_specEncoderStage, shapeSem_specInputStage]

/-- Shape of one default (`conv2d_transpose`, strides `[2, 2]`) upsampling
stage: spatial dimensions double (a dimension `d` maps to
`(d-1)*2 + 3 - 1 = 2d`, clamped at 0 by the slice), channels become the
requested filter count. -/
lemma shapeSem_upsampled (rt : Shape4) (g : Graph) (f : Int) :
    shapeSem rt (Graph.sliceTrim1 (Graph.relu
      (Graph.conv2dTranspose g f 3 3 2 2))) =
      ⟨(shapeSem rt g).batch, max (2 * (shapeSem rt g).height) 0,
       max (2 * (shapeSem rt g).width) 0, f⟩ := by
  simp only [shapeSem, Shape4.mk.injEq]
  refine ⟨trivial, by omega, by omega, trivial⟩

/-- Reshaping to `_dynamic_or_static_shape` of the input recovers the
input's runtime shape, whether the static shape is fully defined (then the
static dimensions are used, and they agree with the runtime ones) or not
(then the dynamic shape of `images` is used). -/
lemma shapeSem_reshape_agrees (ss : StaticShape4) (rt : Shape4) (pre : Graph)
    (hagree : staticAgrees ss rt = true) :
    shapeSem rt (Graph.reshape pre (_dynamic_or_static_shape ss)) = rt := by
  obtain ⟨ob, oh, ow, ch⟩ := ss
  obtain ⟨B, H, W, C⟩ := rt
  simp only [staticAgrees, Bool.and_eq_true, decide_eq_true_eq] at hagree
  obtain ⟨⟨⟨hab, hah⟩, haw⟩, hac⟩ := hagree
  rcases ob with _ | bv <;> rcases oh with _ | hv <;> rcases ow with _ | wv <;>
    simp_all [optAgrees, _dynamic_or_static_shape, shapeSem]

/-- Elementwise addition keeps its (first) operand's shape. -/
lemma shapeSem_add (rt : Shape4) (a b : Graph) :
    shapeSem rt (Graph.add a b) = shapeSem rt a := rfl

/-- `tanh` is elementwise: it keeps its operand's shape. -/
lemma shapeSem_tanh (rt : Shape4) (t : Graph) :
    shapeSem rt (Graph.tanh t) = shapeSem rt t := rfl

/-- `defaultUpsampleFn` at the generator's `strides=[2, 2]`, with the pair
projections evaluated. -/
lemma defaultUpsampleFn_eq22 (net : Graph) (f : Int) :
    defaultUpsampleFn net f (2, 2) =
      Except.ok (Graph.sliceTrim1 (Graph.relu
        (Graph.conv2dTranspose net f 3 3 2 2))) := rfl

/-- C4: under the multiple-of-4 precondition (with the default
`cyclegan_upsample`/`conv2d_transpose` upsampling at strides `[2, 2]`),
the generator succeeds and returns `predictions = tanh(logits) + logits *
tanh_linear_slope` where the logits are the output convolution reshaped to
`_dynamic_or_static_shape(images)` (the static shape when fully defined,
the dynamic shape otherwise); the tensor fed to that reshape already has
the input's shape (so the reshape is consistent), and both the logits and
the predictions have exactly the input's shape.  `staticAgrees` states
that the statically known dimensions match the runtime ones, and runtime
spatial dimensions of a tensor are nonnegative. -/
theorem C4_output_and_predictions_shape (ss : StaticShape4) (rt : Shape4)
    (nrb : Nat) (nf : Int) (ks : KernelSize) (slope : ℚ)
    (hagree : staticAgrees ss rt = true)
    (hH0 : 0 ≤ rt.height) (hW0 : 0 ≤ rt.width)
    (hH4 : rt.height % 4 = 0) (hW4 : rt.width % 4 = 0) :
    ∃ lg eps,
      cyclegan_generator_resnet ss nrb nf defaultUpsampleFn ks slope =
        Except.ok (specPredictions lg slope, eps) ∧
      (∃ pre, lg = Graph.reshape pre (_dynamic_or_static_shape ss) ∧
        shapeSem rt pre = rt) ∧
      shapeSem rt lg = rt ∧
      shapeSem rt (specPredictions lg slope) = rt := by
  have hagreeKeep := hagree
  obtain ⟨ob, oh, ow, ch⟩ := ss
  obtain ⟨B, H, W, C⟩ := rt
  dsimp only at hH0 hW0 hH4 hW4
  simp only [staticAgrees, Bool.and_eq_true, decide_eq_true_eq] at hagree
  obtain ⟨⟨⟨hab, hah⟩, haw⟩, hac⟩ := hagree
  have hhF : dimCheckFires oh = false := by
    rcases oh with _ | v
    · rfl
    · simp only [optAgrees, decide_eq_true_eq] at hah
      subst hah
      simp [dimCheckFires, hH4]
  have hwF : dimCheckFires ow = false := by
    rcases ow with _ | v
    · rfl
    · simp only [optAgrees, decide_eq_true_eq] at haw
      subst haw
      simp [dimCheckFires, hW4]
  have h1 : shapeSem ⟨B, H, W, C⟩
      (specOutputLogits ch (Graph.sliceTrim1 (Graph.relu
        (Graph.conv2dTranspose (Graph.sliceTrim1 (Graph.relu
          (Graph.conv2dTranspose (specTowerOut nf (normalizeKernel ks) nrb)
            (nf * 2) 3 3 2 2))) nf 3 3 2 2)))) = ⟨B, H, W, C⟩ := by
    simp only [specOutputLogits, _conv2d, shapeSem_upsampled, shapeSem_towerOut,
      shapeSem, Shape4.mk.injEq]
    refine ⟨trivial, by omega, by omega, hac⟩
  have h2 : shapeSem ⟨B, H, W, C⟩
      (Graph.reshape
        (specOutputLogits ch (Graph.sliceTrim1 (Graph.relu
          (Graph.conv2dTranspose (Graph.sliceTrim1 (Graph.relu
            (Graph.conv2dTranspose (specTowerOut nf (normalizeKernel ks) nrb)
              (nf * 2) 3 3 2 2))) nf 3 3 2 2))))
        (_dynamic_or_static_shape ⟨ob, oh, ow, ch⟩)) = ⟨B, H, W, C⟩ :=
    shapeSem_reshape_agrees ⟨ob, oh, ow, ch⟩ ⟨B, H, W, C⟩ _ hagreeKeep
  have h3 : shapeSem ⟨B, H, W, C⟩
      (specPredictions
        (Graph.reshape
          (specOutputLogits ch (Graph.sliceTrim1 (Graph.relu
            (Graph.conv2dTranspose (Graph.sliceTrim1 (Graph.relu
              (Graph.conv2dTranspose (specTowerOut nf (normalizeKernel ks) nrb)
                (nf * 2) 3 3 2 2))) nf 3 3 2 2))))
          (_dynamic_or_static_shape ⟨ob, oh, ow, ch⟩)) slope) =
      ⟨B, H, W, C⟩ := by
    rw [specPredictions, shapeSem_add, shapeSem_tanh]
    exact h2
  have hgen := generator_eq_spec ⟨ob, oh, ow, ch⟩ nrb nf defaultUpsampleFn ks
    slope hhF hwF
  simp only [defaultUpsampleFn_eq22, except_bind_ok] at hgen
  exact ⟨_, _, hgen, ⟨_, rfl, h1⟩, h2, h3⟩

/-- Witness for C4 at a concrete fully defined static shape `[1, 4, 4, 3]`
with one residual block. -/
theorem C4_output_and_predictions_shape_witness :
    ∃ lg eps,
      cyclegan_generator_resnet ⟨some 1, some 4, some 4, 3⟩ 1 2
          defaultUpsampleFn (KernelSize.scalar 3) 0 =
        Except.ok (specPredictions lg 0, eps) ∧
      (∃ pre, lg = Graph.reshape pre
          (_dynamic_or_static_shape ⟨some 1, some 4, some 4, 3⟩) ∧
        shapeSem ⟨1, 4, 4, 3⟩ pre = ⟨1, 4, 4, 3⟩) ∧
      shapeSem ⟨1, 4, 4, 3⟩ lg = ⟨1, 4, 4, 3⟩ ∧
      shapeSem ⟨1, 4, 4, 3⟩ (specPredictions lg 0) = ⟨1, 4, 4, 3⟩ :=
  C4_output_and_predictions_shape ⟨some 1, some 4, some 4, 3⟩ ⟨1, 4, 4, 3⟩
    1 2 (KernelSize.scalar 3) 0 (by decide) (by decide) (by decide)
    (by decide) (by decide)

/-- Extracts the graph from a successful upsampling result (used to name
concrete decoder outputs in witnesses). -/
def okGraph (e : Except String Graph) : Graph :=
  match e with
  | Except.ok g => g
  | Except.error _ => Graph.images

/-- C1: for statically known height and width that are multiples of 4 and
any `num_resnet_blocks`, the generator builds its output in the fixed
claimed order — `specInputStage` (reflect-padded 7x7 convolution, instance
norm, ReLU), the two stride-2 encoder stages inside `specResTowerIn`,
exactly `nrb` residual blocks (`specTowerOut`), the two `upsample_fn`
stages with `num_filters*2` then `num_filters` outputs at strides
`[2, 2]` (pinned by `hd1`/`hd2`), and the reflect-padded 7x7 output
convolution producing the logits (`specOutputLogits`), which are reshaped
to the input shape and fed to the tanh-plus-linear output.  The graph
equality is exact, so no other processing stage occurs between input and
output. -/
theorem C1_generator_fixed_topology (ss : StaticShape4) (nrb : Nat)
    (nf : Int) (upfn : Graph → Int → Int × Int → Except String Graph)
    (ks : KernelSize) (slope : ℚ) (h w : Int) (d1 d2 : Graph)
    (hh : ss.height = some h) (hh4 : h % 4 = 0)
    (hw : ss.width = some w) (hw4 : w % 4 = 0)
    (hd1 : upfn (specTowerOut nf (normalizeKernel ks) nrb) (nf * 2) (2, 2) =
      Except.ok d1)
    (hd2 : upfn d1 nf (2, 2) = Except.ok d2) :
    ∃ eps,
      cyclegan_generator_resnet ss nrb nf upfn ks slope =
        Except.ok
          (specPredictions
            (Graph.reshape (specOutputLogits ss.channels d2)
              (_dynamic_or_static_shape ss)) slope, eps) := by
  have hhF : dimCheckFires ss.height = false := by
    rw [hh]
    simp [dimCheckFires, hh4]
  have hwF : dimCheckFires ss.width = false := by
    rw [hw]
    simp [dimCheckFires, hw4]
  rw [generator_eq_spec ss nrb nf upfn ks slope hhF hwF, hd1, except_bind_ok,
    hd2, except_bind_ok]
  exact ⟨_, rfl⟩

/-- Witness for C1 at static shape `[1, 4, 4, 3]`, one residual block,
`num_filters = 2`, scalar kernel size 3, and the default upsampling
function. -/
theorem C1_generator_fixed_topology_witness :
    ∃ eps,
      cyclegan_generator_resnet ⟨some 1, some 4, some 4, 3⟩ 1 2
          defaultUpsampleFn (KernelSize.scalar 3) 0 =
        Except.ok
          (specPredictions
            (Graph.reshape
              (specOutputLogits 3
                (okGraph (defaultUpsampleFn
                  (okGraph (defaultUpsampleFn
                    (specTowerOut 2 (normalizeKernel (KernelSize.scalar 3)) 1)
                    (2 * 2) (2, 2))) 2 (2, 2))))
              (_dynamic_or_static_shape ⟨some 1, some 4, some 4, 3⟩)) 0,
            eps) :=
  C1_generator_fixed_topology ⟨some 1, some 4, some 4, 3⟩ 1 2
    defaultUpsampleFn (KernelSize.scalar 3) 0 4 4
    (okGraph (defaultUpsampleFn
      (specTowerOut 2 (normalizeKernel (KernelSize.scalar 3)) 1) (2 * 2)
      (2, 2)))
    (okGraph (defaultUpsampleFn
      (okGraph (defaultUpsampleFn
        (specTowerOut 2 (normalizeKernel (KernelSize.scalar 3)) 1) (2 * 2)
        (2, 2))) 2 (2, 2)))
    rfl (by decide) rfl (by decide) rfl rfl

/-- Indexing past three explicit head entries of an appended list. -/
lemma getElem?_append3 {α : Type} (a b c : α) (M T : List α) (i : Nat) :
    (([a, b, c] ++ M) ++ T)[i + 3]? = (M ++ T)[i]? := by
  rw [List.append_assoc, List.getElem?_append]
  simp

/-- First component (the predictions tensor) of a successful generator
result. -/
def okPredictions (e : Except String (Graph × List (String × Graph))) :
    Graph :=
  match e with
  | Except.ok p => p.1
  | Except.error _ => Graph.images

/-- Second component (the `end_points` dictionary) of a successful
generator result. -/
def okEndPoints (e : Except String (Graph × List (String × Graph))) :
    List (String × Graph) :=
  match e with
  | Except.ok p => p.2
  | Except.error _ => []

/-- C2: whenever the generator succeeds, entry 2 of `end_points` is
`encoder_2` (the residual tower input) and, for every block index
`i < num_resnet_blocks`, entry `3 + i` is `('resnet_block_i', input +
f(input))`, where `input` is the output of the previous block (`i`
applications of the block step to the encoder output) and `f` is the
reflect-pad → conv2d → instance-norm → ReLU → reflect-pad → conv2d →
instance-norm path `resBlockF`. -/
theorem C2_residual_block_skip_connection (ss : StaticShape4) (nrb : Nat)
    (nf : Int) (upfn : Graph → Int → Int × Int → Except String Graph)
    (ks : KernelSize) (slope : ℚ) (pred : Graph)
    (eps : List (String × Graph))
    (hok : cyclegan_generator_resnet ss nrb nf upfn ks slope =
      Except.ok (pred, eps))
    (i : Nat) (hi : i < nrb) :
    eps[2]? = some ("encoder_2", specResTowerIn nf (normalizeKernel ks)) ∧
    eps[3 + i]? =
      some ("resnet_block_" ++ toString i,
        Graph.add
          ((specResStep (nf * 4) (normalizeKernel ks))^[i]
            (specResTowerIn nf (normalizeKernel ks)))
          (resBlockF (nf * 4) (normalizeKernel ks)
            (((normalizeKernel ks).1 - 1) / 2) ((normalizeKernel ks).1 / 2)
            (((normalizeKernel ks).2 - 1) / 2) ((normalizeKernel ks).2 / 2)
            ((specResStep (nf * 4) (normalizeKernel ks))^[i]
              (specResTowerIn nf (normalizeKernel ks))))) := by
  have hhF : dimCheckFires ss.height = false := by
    cases hB : dimCheckFires ss.height
    · rfl
    · rw [cyclegan_generator_resnet, hB] at hok
      simp at hok
  have hwF : dimCheckFires ss.width = false := by
    cases hB : dimCheckFires ss.width
    · rfl
    · rw [cyclegan_generator_resnet, hhF, hB] at hok
      simp at hok
  rw [generator_eq_spec ss nrb nf upfn ks slope hhF hwF] at hok
  cases hu1 : upfn (specTowerOut nf (normalizeKernel ks) nrb) (nf * 2) (2, 2)
    with
  | error e =>
    rw [hu1] at hok
    simp [Except.bind] at hok
  | ok d1 =>
    rw [hu1, except_bind_ok] at hok
    cases hu2 : upfn d1 nf (2, 2) with
    | error e =>
      rw [hu2] at hok
      simp [Except.bind] at hok
    | ok d2 =>
      rw [hu2, except_bind_ok] at hok
      simp only [Except.ok.injEq, Prod.mk.injEq] at hok
      obtain ⟨hpred, heps⟩ := hok
      subst heps
      refine ⟨?_, ?_⟩
      · rw [List.append_assoc, List.getElem?_append, if_pos (by simp)]
        rfl
      rw [Nat.add_comm 3 i, getElem?_append3, List.getElem?_append,
        if_pos (by simpa using hi)]
      simp [List.getElem?_map, List.getElem?_range, hi,
        Function.iterate_succ_apply', specResStep]

/-- Witness for C2 at static shape `[1, 4, 4, 3]`, one residual block and
block index 0. -/
theorem C2_residual_block_skip_connection_witness :
    (okEndPoints (cyclegan_generator_resnet ⟨some 1, some 4, some 4, 3⟩ 1 2
      defaultUpsampleFn (KernelSize.scalar 3) 0))[2]? =
      some ("encoder_2", specResTowerIn 2 (normalizeKernel
        (KernelSize.scalar 3))) ∧
    (okEndPoints (cyclegan_generator_resnet ⟨some 1, some 4, some 4, 3⟩ 1 2
      defaultUpsampleFn (KernelSize.scalar 3) 0))[3 + 0]? =
      some ("resnet_block_" ++ toString 0,
        Graph.add
          ((specResStep (2 * 4) (normalizeKernel (KernelSize.scalar 3)))^[0]
            (specResTowerIn 2 (normalizeKernel (KernelSize.scalar 3))))
          (resBlockF (2 * 4) (normalizeKernel (KernelSize.scalar 3))
            (((normalizeKernel (KernelSize.scalar 3)).1 - 1) / 2)
            ((normalizeKernel (KernelSize.scalar 3)).1 / 2)
            (((normalizeKernel (KernelSize.scalar 3)).2 - 1) / 2)
            ((normalizeKernel (KernelSize.scalar 3)).2 / 2)
            ((specResStep (2 * 4) (normalizeKernel (KernelSize.scalar 3)))^[0]
              (specResTowerIn 2 (normalizeKernel (KernelSize.scalar 3)))))) :=
  C2_residual_block_skip_connection ⟨some 1, some 4, some 4, 3⟩ 1 2
    defaultUpsampleFn (KernelSize.scalar 3) 0
    (okPredictions (cyclegan_generator_resnet ⟨some 1, some 4, some 4, 3⟩ 1 2
      defaultUpsampleFn (KernelSize.scalar 3) 0))
    (okEndPoints (cyclegan_generator_resnet ⟨some 1, some 4, some 4, 3⟩ 1 2
      defaultUpsampleFn (KernelSize.scalar 3) 0))
    rfl 0 (by decide)

/-- The python truthiness check fires exactly on a statically known,
nonzero dimension that is not a multiple of 4. -/
lemma dimCheckFires_iff (d : Option Int) :
    dimCheckFires d = true ↔ ∃ v, d = some v ∧ v ≠ 0 ∧ v % 4 ≠ 0 := by
  cases d with
  | none => simp [dimCheckFires]
  | some v => simp [dimCheckFires]

/-- C3: with an upsampling function that never fails (the default one does
not), graph construction raises `ValueError` if and only if the static
height is known, nonzero and not a multiple of 4, or the static width is
known, nonzero and not a multiple of 4; a `None` or `0` dimension never
triggers the check and construction proceeds. -/
theorem C3_value_error_iff (ss : StaticShape4) (nrb : Nat) (nf : Int)
    (upfn : Graph → Int → Int × Int → Except String Graph)
    (ks : KernelSize) (slope : ℚ)
    (hup : ∀ n f s, ∃ g, upfn n f s = Except.ok g) :
    (∃ e, cyclegan_generator_resnet ss nrb nf upfn ks slope =
      Except.error e) ↔
      ((∃ v, ss.height = some v ∧ v ≠ 0 ∧ v % 4 ≠ 0) ∨
       (∃ v, ss.width = some v ∧ v ≠ 0 ∧ v % 4 ≠ 0)) := by
  cases hB : dimCheckFires ss.height with
  | true =>
    have hgen : cyclegan_generator_resnet ss nrb nf upfn ks slope =
        Except.error "The input height must be a multiple of 4." := by
      rw [cyclegan_generator_resnet, hB]
      simp
    exact ⟨fun _ => Or.inl ((dimCheckFires_iff ss.height).mp hB),
           fun _ => ⟨_, hgen⟩⟩
  | false =>
    cases hC : dimCheckFires ss.width with
    | true =>
      have hgen : cyclegan_generator_resnet ss nrb nf upfn ks slope =
          Except.error "The input width must be a multiple of 4." := by
        rw [cyclegan_generator_resnet, hB, hC]
        simp
      exact ⟨fun _ => Or.inr ((dimCheckFires_iff ss.width).mp hC),
             fun _ => ⟨_, hgen⟩⟩
    | false =>
      obtain ⟨d1, hd1⟩ := hup (specTowerOut nf (normalizeKernel ks) nrb)
        (nf * 2) (2, 2)
      obtain ⟨d2, hd2⟩ := hup d1 nf (2, 2)
      have hgen := generator_eq_spec ss nrb nf upfn ks slope hB hC
      rw [hd1, except_bind_ok, hd2, except_bind_ok] at hgen
      constructor
      · rintro ⟨e, he⟩
        rw [hgen] at he
        exact absurd he (by simp)
      · rintro (hv | hv)
        · exact absurd ((dimCheckFires_iff ss.height).mpr hv)
            (by simp [hB])
        · exact absurd ((dimCheckFires_iff ss.width).mpr hv)
            (by simp [hC])

/-- Witness for C3: a static height of 5 (not a multiple of 4) raises, with
the default upsampling function. -/
theorem C3_value_error_iff_witness :
    (∃ e, cyclegan_generator_resnet ⟨some 1, some 5, some 4, 3⟩ 6 64
      defaultUpsampleFn (KernelSize.scalar 3) 0 = Except.error e) ↔
      ((∃ v, (some (5 : Int) : Option Int) = some v ∧ v ≠ 0 ∧ v % 4 ≠ 0) ∨
       (∃ v, (some (4 : Int) : Option Int) = some v ∧ v ≠ 0 ∧ v % 4 ≠ 0)) :=
  C3_value_error_iff ⟨some 1, some 5, some 4, 3⟩ 6 64 defaultUpsampleFn
    (KernelSize.scalar 3) 0 (fun _ _ _ => ⟨_, rfl⟩)

/-- C5: `cyclegan_upsample` succeeds exactly on the three recognized
method strings, and on any other method it returns the
`Unknown method: [...]` error — an `Except.error` carrying only the
message, so none of the resize, pad, convolution, normalization or slicing
operations is applied to the input on the error path. -/
theorem C5_upsample_method_dispatch (net : Graph) (num_outputs : Int)
    (strides : Int × Int) (method pad_mode : String) :
    ((∃ g, cyclegan_upsample net num_outputs strides method pad_mode =
        Except.ok g) ↔
      (method = "nn_upsample_conv" ∨ method = "bilinear_upsample_conv" ∨
       method = "conv2d_transpose")) ∧
    (method ≠ "nn_upsample_conv" → method ≠ "bilinear_upsample_conv" →
     method ≠ "conv2d_transpose" →
     cyclegan_upsample net num_outputs strides method pad_mode =
       Except.error ("Unknown method: [" ++ method ++ "]")) := by
  by_cases h1 : method = "nn_upsample_conv"
  · subst h1
    simp [cyclegan_upsample]
  · by_cases h2 : method = "bilinear_upsample_conv"
    · subst h2
      simp [cyclegan_upsample]
    · by_cases h3 : method = "conv2d_transpose"
      · subst h3
        simp [cyclegan_upsample]
      · simp [cyclegan_upsample, h1, h2, h3]

/-- Witness for C5: an unrecognized method string is rejected with the
exact error message and no constructed graph. -/
theorem C5_upsample_method_dispatch_witness :
    cyclegan_upsample Graph.images 1 (2, 2) "foo" "REFLECT" =
      Except.error ("Unknown method: [" ++ "foo" ++ "]") :=
  (C5_upsample_method_dispatch Graph.images 1 (2, 2) "foo" "REFLECT").2
    (by decide) (by decide) (by decide)

/-- C7: graph construction is a pure function of its arguments — the
embedding carries no mutable or persistent state, so two calls on equal
images (static shapes), block counts, filter counts, kernel sizes and
tanh-linear slopes, with the same upsampling function, return equal
predictions graphs and equal `end_points` dictionaries. -/
theorem C7_generator_deterministic (ss₁ ss₂ : StaticShape4)
    (nrb₁ nrb₂ : Nat) (nf₁ nf₂ : Int)
    (upfn : Graph → Int → Int × Int → Except String Graph)
    (ks₁ ks₂ : KernelSize) (sl₁ sl₂ : ℚ)
    (h1 : ss₁ = ss₂) (h2 : nrb₁ = nrb₂) (h3 : nf₁ = nf₂)
    (h4 : ks₁ = ks₂) (h5 : sl₁ = sl₂) :
    cyclegan_generator_resnet ss₁ nrb₁ nf₁ upfn ks₁ sl₁ =
      cyclegan_generator_resnet ss₂ nrb₂ nf₂ upfn ks₂ sl₂ := by
  subst h1
  subst h2
  subst h3
  subst h4
  subst h5
  rfl

/-- Witness for C7 at concrete equal arguments. -/
theorem C7_generator_deterministic_witness :
    cyclegan_generator_resnet ⟨some 1, some 4, some 4, 3⟩ 1 2
        defaultUpsampleFn (KernelSize.scalar 3) 0 =
      cyclegan_generator_resnet ⟨some 1, some 4, some 4, 3⟩ 1 2
        defaultUpsampleFn (KernelSize.scalar 3) 0 :=
  C7_generator_deterministic ⟨some 1, some 4, some 4, 3⟩
    ⟨some 1, some 4, some 4, 3⟩ 1 1 2 2 defaultUpsampleFn
    (KernelSize.scalar 3) (KernelSize.scalar 3) 0 0 rfl rfl rfl rfl rfl

/-- Modelled from the spec: the body of `tfgan.features.instance_norm` is
library code not present in this repository fragment (only its call site
`_instance_norm` is).  Per the spec's glossary — "Instance normalization:
Per-sample, per-channel normalization layer" — each `(sample, channel)`
slice is normalized by that slice's own mean.  This is the mean of one
`(b, c)` slice of a rank-4 tensor, with entries modelled as rationals. -/
def sliceMean (B H W C : Nat) (x : Fin B → Fin H → Fin W → Fin C → ℚ)
    (b : Fin B) (c : Fin C) : ℚ :=
  (∑ h : Fin H, ∑ w : Fin W, x b h w c) / ((H : ℚ) * (W : ℚ))

/-- Modelled from the spec: the variance of one `(b, c)` slice, the mean of
the squared deviations from the slice's own mean. -/
def sliceVar (B H W C : Nat) (x : Fin B → Fin H → Fin W → Fin C → ℚ)
    (b : Fin B) (c : Fin C) : ℚ :=
  (∑ h : Fin H, ∑ w : Fin W,
    (x b h w c - sliceMean B H W C x b c) *
      (x b h w c - sliceMean B H W C x b c)) / ((H : ℚ) * (W : ℚ))

/-- Modelled from the spec: instance normalization.  Each entry is
normalized by its own `(sample, channel)` slice's mean and variance (the
square root being supplied as a function, since the embedding works over
rationals), then scaled by a learned per-channel `gamma` when `scale` is
enabled and shifted by a learned per-channel `beta` when `center` is
enabled, with `epsilon` added to the variance. -/
def instance_norm_sem (B H W C : Nat) (sqrtFn : ℚ → ℚ)
    (gamma beta : Fin C → ℚ) (center scale : Bool) (epsilon : ℚ)
    (x : Fin B → Fin H → Fin W → Fin C → ℚ) :
    Fin B → Fin H → Fin W → Fin C → ℚ :=
  fun b h w c =>
    (if scale then gamma c else 1) *
      ((x b h w c - sliceMean B H W C x b c) /
        sqrtFn (sliceVar B H W C x b c + epsilon)) +
    (if center then beta c else 0)

/-- Every `instanceNorm` node in a graph carries exactly the arguments
`_instance_norm` passes: `center=True`, `scale=True`, `epsilon=0.001`. -/
def allInstanceNormsStandard : Graph → Bool
  | Graph.images => true
  | Graph.pad t _ _ _ _ _ => allInstanceNormsStandard t
  | Graph.conv2d t _ _ _ _ _ => allInstanceNormsStandard t
  | Graph.instanceNorm t c s e =>
    c && s && decide (e = (1 / 1000 : ℚ)) && allInstanceNormsStandard t
  | Graph.relu t => allInstanceNormsStandard t
  | Graph.resize t _ _ _ => allInstanceNormsStandard t
  | Graph.conv2dTranspose t _ _ _ _ _ => allInstanceNormsStandard t
  | Graph.sliceTrim1 t => allInstanceNormsStandard t
  | Graph.add a b => allInstanceNormsStandard a && allInstanceNormsStandard b
  | Graph.reshape t _ => allInstanceNormsStandard t
  | Graph.tanh t => allInstanceNormsStandard t
  | Graph.scalarMul t _ => allInstanceNormsStandard t

/-- `_instance_norm` introduces only a standard normalization node. -/
lemma ains_instance_norm (t : Graph) :
    allInstanceNormsStandard (_instance_norm t) =
      allInstanceNormsStandard t := by
  simp [_instance_norm, allInstanceNormsStandard]

/-- The residual-block path contains only standard normalizations. -/
lemma ains_resBlockF (nf4 : Int) (k : Int × Int) (pt pb pl pr : Int)
    (g : Graph) :
    allInstanceNormsStandard (resBlockF nf4 k pt pb pl pr g) =
      allInstanceNormsStandard g := by
  simp [resBlockF, _conv2d, _instance_norm, allInstanceNormsStandard]

/-- The input stage contains only standard normalizations. -/
lemma ains_specInputStage (nf : Int) :
    allInstanceNormsStandard (specInputStage nf) = true := by
  simp [specInputStage, specStage, _conv2d, _instance_norm,
    allInstanceNormsStandard]

/-- An encoder stage adds only standard normalizations. -/
lemma ains_specEncoderStage (f : Int) (k : Int × Int) (g : Graph) :
    allInstanceNormsStandard (specEncoderStage f k g) =
      allInstanceNormsStandard g := by
  simp [specEncoderStage, specStage, _conv2d, _instance_norm,
    allInstanceNormsStandard]

/-- The residual tower input contains only standard normalizations. -/
lemma ains_specResTowerIn (nf : Int) (k : Int × Int) :
    allInstanceNormsStandard (specResTowerIn nf k) = true := by
  simp [specResTowerIn, ains_specEncoderStage, ains_specInputStage]

/-- A residual block step preserves standard-normalization-only graphs. -/
lemma ains_specResStep (nf4 : Int) (k : Int × Int) (g : Graph) :
    allInstanceNormsStandard (specResStep nf4 k g) =
      allInstanceNormsStandard g := by
  simp [specResStep, allInstanceNormsStandard, _conv2d, _instance_norm,
    resBlockF]

/-- The whole residual tower contains only standard normalizations. -/
lemma ains_specTowerOut (nf : Int) (k : Int × Int) (nrb : Nat) :
    allInstanceNormsStandard (specTowerOut nf k nrb) = true := by
  rw [specTowerOut]
  induction nrb with
  | zero => simpa using ains_specResTowerIn nf k
  | succ n ih =>
    rw [Function.iterate_succ_apply', ains_specResStep]
    exact ih

/-- Iterating residual block steps preserves standard-normalization-only
graphs. -/
lemma ains_iterate_resStep (nf4 : Int) (k : Int × Int) (n : Nat)
    (g : Graph) :
    allInstanceNormsStandard ((specResStep nf4 k)^[n] g) =
      allInstanceNormsStandard g := by
  induction n with
  | zero => rfl
  | succ n ih =>
    rw [Function.iterate_succ_apply', ains_specResStep]
    exact ih

/-- C6: instance normalization is per-sample and per-channel — the output
on a `(sample, channel)` slice depends only on the input's values on that
same slice, which it normalizes by the slice's own mean and variance with
the added epsilon (`instance_norm_sem`, modelled from the spec since the
`tfgan.features.instance_norm` body is not part of this fragment) — and
every normalization node occurring anywhere in the graphs built by the
generator (with its default upsampling) carries exactly the `_instance_norm`
arguments: `center=True`, `scale=True`, `epsilon=0.001`. -/
theorem C6_instance_normalization :
    (∀ (B H W C : Nat) (sqrtFn : ℚ → ℚ) (gamma beta : Fin C → ℚ)
        (center scale : Bool) (epsilon : ℚ)
        (x y : Fin B → Fin H → Fin W → Fin C → ℚ) (b : Fin B) (c : Fin C),
      (∀ h w, x b h w c = y b h w c) →
      ∀ h w,
        instance_norm_sem B H W C sqrtFn gamma beta center scale epsilon x
          b h w c =
        instance_norm_sem B H W C sqrtFn gamma beta center scale epsilon y
          b h w c) ∧
    (∀ (ss : StaticShape4) (nrb : Nat) (nf : Int) (ks : KernelSize)
        (slope : ℚ) (pred : Graph) (eps : List (String × Graph)),
      cyclegan_generator_resnet ss nrb nf defaultUpsampleFn ks slope =
        Except.ok (pred, eps) →
      allInstanceNormsStandard pred = true ∧
      ∀ p ∈ eps, allInstanceNormsStandard p.2 = true) := by
  constructor
  · intro B H W C sqrtFn gamma beta center scale epsilon x y b c hxy h w
    have hmean : sliceMean B H W C x b c = sliceMean B H W C y b c := by
      unfold sliceMean
      congr 1
      exact Finset.sum_congr rfl fun h2 _ =>
        Finset.sum_congr rfl fun w2 _ => hxy h2 w2
    have hvar : sliceVar B H W C x b c = sliceVar B H W C y b c := by
      unfold sliceVar
      congr 1
      refine Finset.sum_congr rfl fun h2 _ =>
        Finset.sum_congr rfl fun w2 _ => ?_
      rw [hxy h2 w2, hmean]
    unfold instance_norm_sem
    rw [hxy h w, hmean, hvar]
  · intro ss nrb nf ks slope pred eps hok
    have hhF : dimCheckFires ss.height = false := by
      cases hB : dimCheckFires ss.height
      · rfl
      · rw [cyclegan_generator_resnet, hB] at hok
        simp at hok
    have hwF : dimCheckFires ss.width = false := by
      cases hB : dimCheckFires ss.width
      · rfl
      · rw [cyclegan_generator_resnet, hhF, hB] at hok
        simp at hok
    rw [generator_eq_spec ss nrb nf defaultUpsampleFn ks slope hhF hwF] at hok
    simp only [defaultUpsampleFn_eq22, except_bind_ok, Except.ok.injEq,
      Prod.mk.injEq] at hok
    obtain ⟨hpred, heps⟩ := hok
    subst hpred
    subst heps
    constructor
    · simp [specPredictions, specOutputLogits, _conv2d,
        allInstanceNormsStandard, ains_specTowerOut]
    · intro p hp
      simp only [List.append_assoc, List.mem_append, List.mem_cons,
        List.mem_map, List.mem_range, List.not_mem_nil, or_false] at hp
      rcases hp with (rfl | rfl | rfl) | ⟨j, hj, rfl⟩ |
        (rfl | rfl | rfl | rfl)
      · simp [ains_specInputStage]
      · simp [ains_specEncoderStage, ains_specInputStage]
      · simp [ains_specResTowerIn]
      · simp [ains_iterate_resStep, ains_specResStep, ains_specResTowerIn]
      · simp [allInstanceNormsStandard, ains_specTowerOut]
      · simp [allInstanceNormsStandard, ains_specTowerOut]
      · simp [allInstanceNormsStandard, specOutputLogits, _conv2d,
          ains_specTowerOut]
      · simp [specPredictions, specOutputLogits, _conv2d,
          allInstanceNormsStandard, ains_specTowerOut]

/-- Witness for C6: a concrete 1x1x1x1 slice pair and the concrete
generator at static shape `[1, 4, 4, 3]` with one residual block. -/
theorem C6_instance_normalization_witness :
    (instance_norm_sem 1 1 1 1 id (fun _ => 2) (fun _ => 3) true true
        (1 / 1000) (fun _ _ _ _ => 5) 0 0 0 0 =
      instance_norm_sem 1 1 1 1 id (fun _ => 2) (fun _ => 3) true true
        (1 / 1000) (fun _ _ _ _ => 5) 0 0 0 0) ∧
    allInstanceNormsStandard (okPredictions
      (cyclegan_generator_resnet ⟨some 1, some 4, some 4, 3⟩ 1 2
        defaultUpsampleFn (KernelSize.scalar 3) 0)) = true :=
  ⟨C6_instance_normalization.1 1 1 1 1 id (fun _ => 2) (fun _ => 3) true
      true (1 / 1000) (fun _ _ _ _ => 5) (fun _ _ _ _ => 5) 0 0
      (fun _ _ => rfl) 0 0,
   (C6_instance_normalization.2 ⟨some 1, some 4, some 4, 3⟩ 1 2
      (KernelSize.scalar 3) 0
      (okPredictions (cyclegan_generator_resnet ⟨some 1, some 4, some 4, 3⟩
        1 2 defaultUpsampleFn (KernelSize.scalar 3) 0))
      (okEndPoints (cyclegan_generator_resnet ⟨some 1, some 4, some 4, 3⟩
        1 2 defaultUpsampleFn (KernelSize.scalar 3) 0)) rfl).1⟩

/-!
Module inventory, for the claim that this fragment also provides a
discriminator network.
-/

/-- The module docstring of `generator.py` (line 16 of the source). -/
def moduleDocstring : String :=
  "Defines the CycleGAN generator and discriminator networks."

/-- The names of the top-level definitions `generator.py` provides, in
source order. -/
def moduleTopLevelDefNames : List String :=
  ["_instance_norm", "cyclegan_upsample", "_dynamic_or_static_shape",
   "_conv2d", "cyclegan_generator_resnet"]

/-- Whether the first list starts with the second (character lists). -/
def startsWithWord : List Char → List Char → Bool
  | [], _ => true
  | _ :: _, [] => false
  | a :: as, b :: bs => a == b && startsWithWord as bs

/-- Whether a character list occurs anywhere inside another. -/
def hasSubWord (pat : List Char) : List Char → Bool
  | [] => startsWithWord pat []
  | b :: bs => startsWithWord pat (b :: bs) || hasSubWord pat bs

/-- Whether a string mentions the word "discriminator". -/
def mentionsDiscriminator (s : String) : Bool :=
  hasSubWord "discriminator".toList s.toList

/-- C8 (refuting evaluation): the module docstring announces a
discriminator network, but none of the module's top-level definitions is
one — every definition name is free of the word "discriminator" (the five
definitions are the instance-norm wrapper, the upsampler, the shape
helper, the convolution wrapper and the generator itself). -/
theorem C8_no_discriminator_in_module :
    mentionsDiscriminator moduleDocstring = true ∧
    ∀ n ∈ moduleTopLevelDefNames, mentionsDiscriminator n = false := by
  decide
